import Mathlib

/-!
Verification of core behaviors of the `dicom-rs` repository against its
specification, by shallow embedding of the relevant source functions.

Conventions used throughout:
* Machine integers (`u8`/`u16`/`u32`/`u64`) are modelled as `Nat`;
  signed integers (`i16`/`i32`/`i64`) as `Int` obtained by two's-complement
  reinterpretation of the unsigned word.
* Floating point values read from the wire (`f32`/`f64`) are modelled by
  their raw bit pattern as a `Nat`; the basic decoders only assemble bytes,
  so no float arithmetic is involved.
* A byte source (`std::io::Read`) is modelled as a list whose entries are
  either a byte or an I/O error produced at that read position; reading past
  the end yields an end-of-file error, mirroring `read_exact`.
* Fallible Rust functions returning `Result` are modelled with `Except`.
-/

namespace DicomRs

/-! ## Basic decoder (src/encoding/src/decode/mod.rs, `BasicDecode`)

The `*_into` bulk loops are verbatim in `src/encoding/src/decode/mod.rs`
(default trait methods).  The per-element decoders live in the `basic`
module, which is declared but not present in the sources; they are
modelled from the spec (§4.2): endian-parametric integer/float reads.
-/

/-- A model of `std::io::Error` as seen by the basic decoders:
either end-of-file from `read_exact`, or an arbitrary error code
produced by the underlying reader. -/
inductive IOError where
  | eof : IOError
  | other (code : Nat) : IOError
  deriving DecidableEq, Repr

/-- A byte source: each position yields a byte or fails with an I/O error. -/
def Src : Type := List (IOError ⊕ Nat)

/-- Read one byte from the source (model of a 1-byte `read_exact`). -/
def readByte : Src → Except IOError (Nat × Src)
  | [] => .error .eof
  | (.inl e) :: _ => .error e
  | (.inr b) :: rest => .ok (b, rest)

/-- Endianness parameter of the basic decoder (`byteordered::Endianness`). -/
inductive Endianness where
  | little
  | big
  deriving DecidableEq, Repr

/-- Modelled from the spec: assemble an `n`-byte unsigned word from the
source in the given byte order (the element decoders of the absent
`basic` module, §4.2). -/
def readWord (e : Endianness) : Nat → Src → Except IOError (Nat × Src)
  | 0, src => .ok (0, src)
  | n + 1, src =>
    match readByte src with
    | .error err => .error err
    | .ok (b, src') =>
      match readWord e n src' with
      | .error err => .error err
      | .ok (w, src'') =>
        match e with
        | .little => .ok (b + 256 * w, src'')
        | .big => .ok (w + 256 ^ n * b, src'')

/-- Two's-complement reinterpretation of a `bits`-wide unsigned word. -/
def toSigned (bits : Nat) (v : Nat) : Int :=
  if v < 2 ^ (bits - 1) then (v : Int) else (v : Int) - 2 ^ bits

/-- Modelled from the spec: `BasicDecode::decode_us` (u16). -/
def decode_us (e : Endianness) (src : Src) : Except IOError (Nat × Src) :=
  readWord e 2 src

/-- Modelled from the spec: `BasicDecode::decode_ul` (u32). -/
def decode_ul (e : Endianness) (src : Src) : Except IOError (Nat × Src) :=
  readWord e 4 src

/-- Modelled from the spec: `BasicDecode::decode_uv` (u64). -/
def decode_uv (e : Endianness) (src : Src) : Except IOError (Nat × Src) :=
  readWord e 8 src

/-- Modelled from the spec: `BasicDecode::decode_ss` (i16). -/
def decode_ss (e : Endianness) (src : Src) : Except IOError (Int × Src) :=
  match decode_us e src with
  | .error err => .error err
  | .ok (v, src') => .ok (toSigned 16 v, src')

/-- Modelled from the spec: `BasicDecode::decode_sl` (i32). -/
def decode_sl (e : Endianness) (src : Src) : Except IOError (Int × Src) :=
  match decode_ul e src with
  | .error err => .error err
  | .ok (v, src') => .ok (toSigned 32 v, src')

/-- Modelled from the spec: `BasicDecode::decode_sv` (i64). -/
def decode_sv (e : Endianness) (src : Src) : Except IOError (Int × Src) :=
  match decode_uv e src with
  | .error err => .error err
  | .ok (v, src') => .ok (toSigned 64 v, src')

/-- Modelled from the spec: `BasicDecode::decode_fl` (f32, kept as its
32-bit pattern). -/
def decode_fl (e : Endianness) (src : Src) : Except IOError (Nat × Src) :=
  readWord e 4 src

/-- Modelled from the spec: `BasicDecode::decode_fd` (f64, kept as its
64-bit pattern). -/
def decode_fd (e : Endianness) (src : Src) : Except IOError (Nat × Src) :=
  readWord e 8 src

/-- The bulk-read loop shared by all `decode_*_into` default methods
(`for v in dst.iter_mut() { *v = self.decode_*(&mut source)?; }`).
The mutable destination slice is modelled by returning its final
contents together with the error, if any, that interrupted the loop. -/
def decodeInto (d : Src → Except IOError (α × Src)) :
    Src → List α → List α × Option IOError
  | _, [] => ([], none)
  | src, x :: xs =>
    match d src with
    | .error e => (x :: xs, some e)
    | .ok (v, src') =>
      let r := decodeInto d src' xs
      (v :: r.1, r.2)

/-- `BasicDecode::decode_us_into`. -/
def decode_us_into (e : Endianness) : Src → List Nat → List Nat × Option IOError :=
  decodeInto (decode_us e)

/-- `BasicDecode::decode_ul_into`. -/
def decode_ul_into (e : Endianness) : Src → List Nat → List Nat × Option IOError :=
  decodeInto (decode_ul e)

/-- `BasicDecode::decode_uv_into`. -/
def decode_uv_into (e : Endianness) : Src → List Nat → List Nat × Option IOError :=
  decodeInto (decode_uv e)

/-- `BasicDecode::decode_ss_into`. -/
def decode_ss_into (e : Endianness) : Src → List Int → List Int × Option IOError :=
  decodeInto (decode_ss e)

/-- `BasicDecode::decode_sl_into`. -/
def decode_sl_into (e : Endianness) : Src → List Int → List Int × Option IOError :=
  decodeInto (decode_sl e)

/-- `BasicDecode::decode_sv_into`. -/
def decode_sv_into (e : Endianness) : Src → List Int → List Int × Option IOError :=
  decodeInto (decode_sv e)

/-- `BasicDecode::decode_fl_into`. -/
def decode_fl_into (e : Endianness) : Src → List Nat → List Nat × Option IOError :=
  decodeInto (decode_fl e)

/-- `BasicDecode::decode_fd_into`. -/
def decode_fd_into (e : Endianness) : Src → List Nat → List Nat × Option IOError :=
  decodeInto (decode_fd e)

/-- Reference behavior of a sequential bulk read of up to `n` elements:
the list of values decoded before the first failure (all `n` on success)
and the error that stopped the read, if any. -/
def seqDecode (d : Src → Except IOError (α × Src)) : Src → Nat → List α × Option IOError
  | _, 0 => ([], none)
  | src, n + 1 =>
    match d src with
    | .error e => ([], some e)
    | .ok (v, src') =>
      let r := seqDecode d src' n
      (v :: r.1, r.2)

/-- The statement of the bulk-read contract for one element decoder `d`:
the loop writes exactly the sequentially decoded values into the first
slots, leaves the remaining slots unchanged, and reports the error (if
any) of the read that failed. -/
def IntoContract (d : Src → Except IOError (α × Src))
    (into : Src → List α → List α × Option IOError) : Prop :=
  ∀ (src : Src) (dst : List α),
    into src dst =
      ((seqDecode d src dst.length).1 ++ dst.drop (seqDecode d src dst.length).1.length,
       (seqDecode d src dst.length).2)

theorem decodeInto_contract (d : Src → Except IOError (α × Src)) :
    IntoContract d (decodeInto d) := by
  intro src dst
  induction dst generalizing src with
  | nil => simp [decodeInto, seqDecode]
  | cons x xs ih =>
    simp only [decodeInto, seqDecode, List.length_cons]
    cases h : d src with
    | error e => simp
    | ok p =>
      obtain ⟨v, src'⟩ := p
      simp [ih src']

/-- On success, the sequential read yields one value per requested slot. -/
theorem seqDecode_full_on_ok (d : Src → Except IOError (α × Src))
    (src : Src) (n : Nat) (h : (seqDecode d src n).2 = none) :
    (seqDecode d src n).1.length = n := by
  induction n generalizing src with
  | zero => simp [seqDecode]
  | succ n ih =>
    simp only [seqDecode] at h ⊢
    cases hd : d src with
    | error e => rw [hd] at h; simp at h
    | ok p =>
      obtain ⟨v, src'⟩ := p
      rw [hd] at h
      simp only at h
      simp [ih src' h]

/-- The sequential read never yields more values than requested. -/
theorem seqDecode_length_le (d : Src → Except IOError (α × Src))
    (src : Src) (n : Nat) : (seqDecode d src n).1.length ≤ n := by
  induction n generalizing src with
  | zero => simp [seqDecode]
  | succ n ih =>
    simp only [seqDecode]
    cases hd : d src with
    | error e => simp
    | ok p =>
      obtain ⟨v, src'⟩ := p
      simpa using ih src'

/-! ## Transfer-syntax registry (src/transfer-syntax-registry)

Only the registry's tests are present in the sources
(`tests/base.rs`, `tests/submit_pixel_stub.rs`); the registry
implementation itself is absent.  It is modelled from the spec (§4.5):
a set of descriptors keyed by UID, lookup trimming a single trailing NUL
padding byte, with at minimum the three base syntaxes fully supported and
the standard encapsulated syntaxes present.
-/

/-- `Codec` capability of a transfer syntax (spec §3). -/
inductive Codec where
  | none
  | encapsulatedPixelData
  | unsupported
  deriving DecidableEq, Repr

/-- Byte order of a transfer syntax (spec §3). -/
inductive ByteOrder where
  | le
  | be
  deriving DecidableEq, Repr

/-- VR encoding of a transfer syntax (spec §3). -/
inductive VrEncoding where
  | implicit
  | explicit
  deriving DecidableEq, Repr

/-- Modelled from the spec: `TransferSyntaxDescriptor` (§3), with the
derived `fully_supported` capability stored as a field. -/
structure TransferSyntaxDescriptor where
  uid : String
  name : String
  byte_order : ByteOrder
  vr_encoding : VrEncoding
  codec : Codec
  fully_supported : Bool
  deriving DecidableEq, Repr

/-- The NUL character used by DICOM to pad UIDs to even length. -/
def nulChar : Char := Char.ofNat 0

/-- A one-character string holding the NUL padding byte. -/
def nulStr : String := String.mk [nulChar]

/-- Modelled from the spec (§4.5): registry lookup "trims a single
trailing NUL padding byte" before matching. -/
def trimTrailingNul (s : String) : String :=
  match s.data.getLast? with
  | some c => if c = nulChar then String.mk s.data.dropLast else s
  | none => s

/-- Modelled from the spec (§4.5): the built-in descriptor set.  The three
base syntaxes are fully supported; the standard encapsulated syntaxes are
registered as `EncapsulatedPixelData` with pluggable pixel adapters. -/
def builtinRegistry : List TransferSyntaxDescriptor :=
  [ { uid := "1.2.840.10008.1.2", name := "Implicit VR Little Endian",
      byte_order := .le, vr_encoding := .implicit, codec := .none,
      fully_supported := true },
    { uid := "1.2.840.10008.1.2.1", name := "Explicit VR Little Endian",
      byte_order := .le, vr_encoding := .explicit, codec := .none,
      fully_supported := true },
    { uid := "1.2.840.10008.1.2.2", name := "Explicit VR Big Endian",
      byte_order := .be, vr_encoding := .explicit, codec := .none,
      fully_supported := true },
    { uid := "1.2.840.10008.1.2.4.50", name := "JPEG Baseline (Process 1)",
      byte_order := .le, vr_encoding := .explicit,
      codec := .encapsulatedPixelData, fully_supported := false },
    { uid := "1.2.840.10008.1.2.4.90",
      name := "JPEG 2000 Image Compression (Lossless Only)",
      byte_order := .le, vr_encoding := .explicit,
      codec := .encapsulatedPixelData, fully_supported := false },
    { uid := "1.2.840.10008.1.2.4.91", name := "JPEG 2000 Image Compression",
      byte_order := .le, vr_encoding := .explicit,
      codec := .encapsulatedPixelData, fully_supported := false },
    { uid := "1.2.840.10008.1.2.5", name := "RLE Lossless",
      byte_order := .le, vr_encoding := .explicit,
      codec := .encapsulatedPixelData, fully_supported := false } ]

/-- Modelled from the spec (§4.5): `TransferSyntaxRegistry.get`, looking
the trimmed UID up in the built-in set. -/
def registryGet (uid : String) : Option TransferSyntaxDescriptor :=
  builtinRegistry.find? (fun ts => ts.uid == trimTrailingNul uid)

theorem trimTrailingNul_append_nul (u : String) :
    trimTrailingNul (u ++ nulStr) = u := by
  cases u with
  | mk data =>
    show trimTrailingNul (String.mk (data ++ [nulChar])) = String.mk data
    simp [trimTrailingNul]

theorem trimTrailingNul_of_not_nul (u : String)
    (h : u.data.getLast? ≠ some nulChar) : trimTrailingNul u = u := by
  unfold trimTrailingNul
  cases hg : u.data.getLast? with
  | none => rfl
  | some c =>
    rw [hg] at h
    simp only
    rw [if_neg (fun hc => h (by rw [hc]))]

/-! ## Core data model used by the JSON bridge

`Tag`, `VR` and `PrimitiveValue` live in the absent `dicom-core` crate;
they are modelled from the spec (§3).  Only the variants reachable from
the JSON deserializer in `src/json/src/de/mod.rs` are needed.
-/

/-- A DICOM attribute tag: a `(group, element)` pair of 16-bit values. -/
structure Tag where
  group : Nat
  element : Nat
  deriving DecidableEq, Repr

/-- Modelled from the spec (§3): the closed enumeration of value
representations. -/
inductive VR where
  | AE | AS | AT | CS | DA | DS | DT | FL | FD | IS
  | LO | LT | OB | OD | OF | OL | OV | OW | PN | SH
  | SL | SQ | SS | ST | SV | TM | UC | UI | UL | UN
  | UR | US | UT | UV
  deriving DecidableEq, Repr

/-- Modelled from the spec (§3): `VR::from_str`, recognizing exactly the
34 two-letter codes. -/
def VR.fromStr : String → Option VR
  | "AE" => some .AE | "AS" => some .AS | "AT" => some .AT
  | "CS" => some .CS | "DA" => some .DA | "DS" => some .DS
  | "DT" => some .DT | "FL" => some .FL | "FD" => some .FD
  | "IS" => some .IS | "LO" => some .LO | "LT" => some .LT
  | "OB" => some .OB | "OD" => some .OD | "OF" => some .OF
  | "OL" => some .OL | "OV" => some .OV | "OW" => some .OW
  | "PN" => some .PN | "SH" => some .SH | "SL" => some .SL
  | "SQ" => some .SQ | "SS" => some .SS | "ST" => some .ST
  | "SV" => some .SV | "TM" => some .TM | "UC" => some .UC
  | "UI" => some .UI | "UL" => some .UL | "UN" => some .UN
  | "UR" => some .UR | "US" => some .US | "UT" => some .UT
  | "UV" => some .UV
  | _ => none

/-- `VR::from_str(&val).unwrap_or(VR::UN)` as performed by the element
visitor (src/json/src/de/mod.rs, lines 141-144). -/
def parseVR (s : String) : VR :=
  (VR.fromStr s).getD VR.UN

/-- Model of a float value appearing in DICOM JSON: either one of the
special tokens admitted by the spec (§4.7) or a finite value.  Finite
values are kept as exact rationals; the deserializer performs no float
arithmetic on them. -/
inductive FVal where
  | nan
  | inf
  | negInf
  | val (q : ℚ)
  deriving DecidableEq, Repr

/-- Modelled from the spec (§3): the `PrimitiveValue` variants reachable
from the JSON deserializer. -/
inductive PrimitiveValue where
  | empty
  | strs (ss : List String)
  | tags (ts : List Tag)
  | u8 (xs : List Nat)
  | i16 (xs : List Int)
  | u16 (xs : List Nat)
  | i32 (xs : List Int)
  | u32 (xs : List Nat)
  | i64 (xs : List Int)
  | u64 (xs : List Nat)
  | f32 (xs : List FVal)
  | f64 (xs : List FVal)
  deriving DecidableEq, Repr

mutual
/-- `Value<InMemDicomObject, InMemFragment>` as produced by the JSON
element visitor: a primitive value or a nested sequence. -/
inductive DValue where
  | primitive (p : PrimitiveValue)
  | sequence (items : List InMemObject)
  deriving Repr

/-- `InMemDicomObject`: a tag-keyed collection of data elements.  The
B-tree map of the absent `dicom-object` crate is modelled as an
association list with overwrite-on-put (spec §4.6). -/
inductive InMemObject where
  | mk (entries : List (Tag × VR × DValue))
  deriving Repr
end

/-- A parsed data element, i.e. `JsonDataElement` of
src/json/src/de/mod.rs: the VR together with the decoded value. -/
structure JsonDataElement where
  vr : VR
  value : DValue
  deriving Repr

/-- Parsed JSON (the output of the external `serde_json` parser): the
input type of the deserialization visitors.  Numbers are carried as the
exact rational denoted by the numeral. -/
inductive J where
  | null
  | bool (b : Bool)
  | num (q : ℚ)
  | str (s : String)
  | arr (xs : List J)
  | obj (fields : List (String × J))
  deriving Repr

/-- `NumberOrText<T>` of the absent `json/src/de/value.rs` module,
modelled from the spec (design note: "a dedicated `NumberOrText<T>` sum
type at the JSON layer"): an untagged union of a number and a string. -/
inductive NumberOrText where
  | number (q : ℚ)
  | text (s : String)
  deriving DecidableEq, Repr

/-! ### Numeral helpers

`Display` for numbers and `serde_json`'s number grammar are external to
the repository; they are modelled here executably so that concrete
documents can be evaluated.
-/

/-- Render one decimal digit (0-9) as a string. -/
def digitStr (d : Nat) : String :=
  String.mk [Char.ofNat (48 + d)]

/-- Fuel-bounded big-endian decimal rendering of a natural number. -/
def natToStrAux : Nat → Nat → String
  | 0, _ => ""
  | fuel + 1, n =>
    if n < 10 then digitStr n
    else natToStrAux fuel (n / 10) ++ digitStr (n % 10)

/-- Decimal rendering of a natural number. -/
def natToStr (n : Nat) : String :=
  natToStrAux (n + 1) n

/-- Fuel-bounded decimal expansion of the fraction `rem / den` (with
`rem < den`), stopping at the first exact digit string (no trailing
zeros).  Computed by long division on raw naturals. -/
def fracDigits : Nat → Nat → Nat → String
  | 0, _, _ => ""
  | fuel + 1, rem, den =>
    if rem = 0 then ""
    else digitStr (rem * 10 / den) ++ fracDigits fuel (rem * 10 % den) den

/-- Model of Rust's `Display` for a parsed JSON number (`{}` on `f64`):
the shortest plain decimal form, with no trailing `.0` on integers.
Exact for the short decimal values exercised here.  Computed directly on
the reduced numerator and denominator of the rational. -/
def displayNum (q : ℚ) : String :=
  (if q.num < 0 then "-" else "") ++
    natToStr (q.num.natAbs / q.den) ++
    (if q.num.natAbs % q.den = 0 then ""
     else "." ++ fracDigits 32 (q.num.natAbs % q.den) q.den)

/-- Parse a run of decimal digits; returns the digits consumed (as most
significant first) and the rest of the input. -/
def takeDigits : List Char → List Nat × List Char
  | [] => ([], [])
  | c :: rest =>
    if 48 ≤ c.toNat ∧ c.toNat ≤ 57 then
      let r := takeDigits rest
      ((c.toNat - 48) :: r.1, r.2)
    else ([], c :: rest)

/-- Fold big-endian decimal digits into a natural number. -/
def digitsToNat (ds : List Nat) : Nat :=
  ds.foldl (fun acc d => acc * 10 + d) 0

/-- Model of the external `serde_json` number grammar: parse a JSON
number literal (`-?int(.frac)?([eE][+-]?exp)?`) into the exact rational
it denotes.  (`serde_json` itself stores the nearest `f64`; the two agree
on the short decimals used here.) -/
def jsonNumParse (s : String) : Option ℚ :=
  let cs := s.data
  let (neg, cs) := match cs with
    | '-' :: rest => (true, rest)
    | _ => (false, cs)
  let (intDs, cs) := takeDigits cs
  if intDs.isEmpty then none
  else
    let (fracDs, cs) := match cs with
      | '.' :: rest =>
        let r := takeDigits rest
        if r.1.isEmpty then ([], '.' :: rest) else (r.1, r.2)
      | _ => ([], cs)
    let (expOk, expNeg, expDs, cs) := match cs with
      | e :: rest =>
        if e = 'e' ∨ e = 'E' then
          let (en, rest) := match rest with
            | '-' :: r => (true, r)
            | '+' :: r => (false, r)
            | _ => (false, rest)
          let r := takeDigits rest
          if r.1.isEmpty then (false, false, [], cs) else (true, en, r.1, r.2)
        else (true, false, [], e :: rest)
      | [] => (true, false, [], [])
    if ¬expOk ∨ ¬cs.isEmpty then none
    else
      let mantissa : Int :=
        (if neg then -1 else 1) * digitsToNat (intDs ++ fracDs)
      let exp : Int := (if expNeg then -(digitsToNat expDs : Int) else digitsToNat expDs)
        - fracDs.length
      some (if 0 ≤ exp then mkRat (mantissa * 10 ^ exp.toNat) 1
            else mkRat mantissa (10 ^ (-exp).toNat))

/-- Parse one hexadecimal digit. -/
def hexDigit (c : Char) : Option Nat :=
  if 48 ≤ c.toNat ∧ c.toNat ≤ 57 then some (c.toNat - 48)
  else if 65 ≤ c.toNat ∧ c.toNat ≤ 70 then some (c.toNat - 55)
  else if 97 ≤ c.toNat ∧ c.toNat ≤ 102 then some (c.toNat - 87)
  else none

/-- Fold hexadecimal digits into a natural number, failing on the first
non-hex character. -/
def hexFold : List Char → Nat → Option Nat
  | [], acc => some acc
  | c :: rest, acc =>
    match hexDigit c with
    | some d => hexFold rest (acc * 16 + d)
    | none => none

/-- Modelled from the spec (§3): parsing a tag from its 8-hex-digit form
`GGGGEEEE` (`Tag::from_str` of the absent `dicom-core` crate). -/
def parseTag (s : String) : Except String Tag :=
  match s.data with
  | [g3, g2, g1, g0, e3, e2, e1, e0] =>
    match hexFold [g3, g2, g1, g0] 0, hexFold [e3, e2, e1, e0] 0 with
    | some g, some e => .ok { group := g, element := e }
    | _, _ => .error "invalid tag"
  | _ => .error "invalid tag"

/-- Value of one character of the standard base64 alphabet. -/
def b64Idx (c : Char) : Option Nat :=
  let n := c.toNat
  if 65 ≤ n ∧ n ≤ 90 then some (n - 65)
  else if 97 ≤ n ∧ n ≤ 122 then some (n - 97 + 26)
  else if 48 ≤ n ∧ n ≤ 57 then some (n - 48 + 52)
  else if c = '+' then some 62
  else if c = '/' then some 63
  else none

/-- Model of the external `base64` crate's STANDARD engine: decode
4-character groups with mandatory padding; any other shape is invalid. -/
def base64Groups : List Char → Option (List Nat)
  | [] => some []
  | a :: b :: c :: d :: rest =>
    match b64Idx a, b64Idx b with
    | some va, some vb =>
      if c = '=' then
        if d = '=' ∧ rest = [] then some [va * 4 + vb / 16] else none
      else
        match b64Idx c with
        | some vc =>
          if d = '=' then
            if rest = [] then some [va * 4 + vb / 16, (vb % 16) * 16 + vc / 4]
            else none
          else
            match b64Idx d with
            | some vd =>
              match base64Groups rest with
              | some tail =>
                some ([va * 4 + vb / 16, (vb % 16) * 16 + vc / 4,
                       (vc % 4) * 64 + vd] ++ tail)
              | none => none
            | none => none
        | none => none
    | _, _ => none
  | _ => none

/-- Decode a base64 string into bytes (standard alphabet, padded). -/
def base64Decode (s : String) : Option (List Nat) :=
  base64Groups s.data

/-! ### Per-VR value deserializers

Models of the typed `map.next_value()` calls performed by the element
visitor for each VR group (src/json/src/de/mod.rs, lines 160-283).  The
typed deserializations themselves are carried out by the external
`serde` machinery; their behavior on parsed JSON is modelled here.
-/

/-- `Vec<String>`: an array whose entries are all JSON strings. -/
def parseStrings : J → Except String (List String)
  | .arr xs =>
    let rec go : List J → Except String (List String)
      | [] => .ok []
      | .str s :: rest =>
        match go rest with
        | .ok ss => .ok (s :: ss)
        | .error e => .error e
      | _ :: _ => .error "invalid type: expected a string"
    go xs
  | _ => .error "invalid type: expected an array"

/-- A `Vec` of unsigned integers bounded by `hi`: an array whose entries
are all integral JSON numbers in `[0, hi]`. -/
def parseNats (hi : Nat) : J → Except String (List Nat)
  | .arr xs =>
    let rec go : List J → Except String (List Nat)
      | [] => .ok []
      | .num q :: rest =>
        if q.den = 1 ∧ 0 ≤ q.num ∧ q.num ≤ (hi : Int) then
          match go rest with
          | .ok ns => .ok (q.num.toNat :: ns)
          | .error e => .error e
        else .error "invalid value: integer out of range"
      | _ :: _ => .error "invalid type: expected an integer"
    go xs
  | _ => .error "invalid type: expected an array"

/-- A `Vec` of signed integers in `[lo, hi]`: an array whose entries are
all integral JSON numbers in range. -/
def parseInts (lo hi : Int) : J → Except String (List Int)
  | .arr xs =>
    let rec go : List J → Except String (List Int)
      | [] => .ok []
      | .num q :: rest =>
        if q.den = 1 ∧ lo ≤ q.num ∧ q.num ≤ hi then
          match go rest with
          | .ok ns => .ok (q.num :: ns)
          | .error e => .error e
        else .error "invalid value: integer out of range"
      | _ :: _ => .error "invalid type: expected an integer"
    go xs
  | _ => .error "invalid type: expected an integer"

/-- Untagged `NumberOrText<f64>` (or `<f32>`): a JSON number or a JSON
string; anything else matches neither arm. -/
def parseNumOrText : J → Except String NumberOrText
  | .num q => .ok (.number q)
  | .str s => .ok (.text s)
  | _ => .error "data did not match any variant of untagged enum NumberOrText"

/-- A `Vec<NumberOrText<f64>>`. -/
def parseNumOrTexts : J → Except String (List NumberOrText)
  | .arr xs =>
    let rec go : List J → Except String (List NumberOrText)
      | [] => .ok []
      | x :: rest =>
        match parseNumOrText x with
        | .ok v =>
          match go rest with
          | .ok vs => .ok (v :: vs)
          | .error e => .error e
        | .error e => .error e
    go xs
  | _ => .error "invalid type: expected an array"

/-- Modelled from the absent `value.rs`: `NumberOrText::to_string`, the
`Display` of the untagged union (a number renders as the `f64` does, a
string renders as itself). -/
def NumberOrText.toDisplayString : NumberOrText → String
  | .number q => displayNum q
  | .text s => s

/-- Modelled from the spec (§4.7): `NumberOrText<f32/f64>::to_num` on the
float target — a number is already a float, a string must be one of the
special tokens `NaN`, `Infinity`, `-Infinity` or a float literal. -/
def numOrTextToFloat : NumberOrText → Except String FVal
  | .number q => .ok (.val q)
  | .text "NaN" => .ok .nan
  | .text "Infinity" => .ok .inf
  | .text "-Infinity" => .ok .negInf
  | .text s =>
    match jsonNumParse s with
    | some q => .ok (.val q)
    | none => .error "invalid float literal"

/-- Fold the float conversion over a parsed `Vec<NumberOrText>`. -/
def floatsOf : List NumberOrText → Except String (List FVal)
  | [] => .ok []
  | v :: rest =>
    match numOrTextToFloat v with
    | .ok f =>
      match floatsOf rest with
      | .ok fs => .ok (f :: fs)
      | .error e => .error e
    | .error e => .error e

/-- Untagged `NumberOrText<uN>` for an unsigned integer target of
maximum `hi`: a number must be integral and in range at deserialization
time; a string is kept for `to_num` to parse. -/
def parseNatOrText (hi : Nat) : J → Except String (Nat ⊕ String)
  | .num q =>
    if q.den = 1 ∧ 0 ≤ q.num ∧ q.num ≤ (hi : Int) then .ok (.inl q.num.toNat)
    else .error "data did not match any variant of untagged enum NumberOrText"
  | .str s => .ok (.inr s)
  | _ => .error "data did not match any variant of untagged enum NumberOrText"

/-- Parse an unsigned decimal string, as `uN::from_str` does. -/
def parseNatString (s : String) : Option Nat :=
  let cs := match s.data with
    | '+' :: rest => rest
    | cs => cs
  let r := takeDigits cs
  if r.1.isEmpty ∨ ¬r.2.isEmpty then none else some (digitsToNat r.1)

/-- `NumberOrText<uN>::to_num`: numbers pass through, strings are parsed
as unsigned decimal literals with a range check. -/
def natOrTextToNum (hi : Nat) : Nat ⊕ String → Except String Nat
  | .inl n => .ok n
  | .inr s =>
    match parseNatString s with
    | some n => if n ≤ hi then .ok n else .error "integer out of range"
    | none => .error "invalid integer literal"

/-- Map `parseNatOrText`/`natOrTextToNum` over a JSON array (the
`UL`/`OL`/`UV`/`OV` element branches). -/
def parseNatNumOrTexts (hi : Nat) : J → Except String (List Nat)
  | .arr xs =>
    let rec go : List J → Except String (List Nat)
      | [] => .ok []
      | x :: rest =>
        match parseNatOrText hi x with
        | .ok v =>
          match natOrTextToNum hi v with
          | .ok n =>
            match go rest with
            | .ok ns => .ok (n :: ns)
            | .error e => .error e
          | .error e => .error e
        | .error e => .error e
    go xs
  | _ => .error "invalid type: expected an array"

/-- Untagged `NumberOrText<i64>`. -/
def parseIntOrText (lo hi : Int) : J → Except String (Int ⊕ String)
  | .num q =>
    if q.den = 1 ∧ lo ≤ q.num ∧ q.num ≤ hi then .ok (.inl q.num)
    else .error "data did not match any variant of untagged enum NumberOrText"
  | .str s => .ok (.inr s)
  | _ => .error "data did not match any variant of untagged enum NumberOrText"

/-- Parse a signed decimal string, as `iN::from_str` does. -/
def parseIntString (s : String) : Option Int :=
  match s.data with
  | '-' :: rest =>
    (match parseNatString (String.mk rest) with
     | some n => some (-(n : Int))
     | none => none)
  | cs =>
    match parseNatString (String.mk cs) with
    | some n => some (n : Int)
    | none => none

/-- `NumberOrText<i64>::to_num`. -/
def intOrTextToNum (lo hi : Int) : Int ⊕ String → Except String Int
  | .inl n => .ok n
  | .inr s =>
    match parseIntString s with
    | some n => if lo ≤ n ∧ n ≤ hi then .ok n else .error "integer out of range"
    | none => .error "invalid integer literal"

/-- Map `parseIntOrText`/`intOrTextToNum` over a JSON array (the `SV`
element branch). -/
def parseIntNumOrTexts (lo hi : Int) : J → Except String (List Int)
  | .arr xs =>
    let rec go : List J → Except String (List Int)
      | [] => .ok []
      | x :: rest =>
        match parseIntOrText lo hi x with
        | .ok v =>
          match intOrTextToNum lo hi v with
          | .ok n =>
            match go rest with
            | .ok ns => .ok (n :: ns)
            | .error e => .error e
          | .error e => .error e
        | .error e => .error e
    go xs
  | _ => .error "invalid type: expected an array"

/-- Modelled from the spec (§4.7): a `DicomJsonPerson` object
`{ "Alphabetic": ..., "Ideographic": ..., "Phonetic": ... }` with unused
components absent; unknown fields are ignored as `serde` derives do. -/
structure DicomJsonPerson where
  alphabetic : Option String
  ideographic : Option String
  phonetic : Option String
  deriving DecidableEq, Repr

/-- Look up the first string field of the given name; fail when the
field is present with a non-string value. -/
def personField (name : String) : List (String × J) → Except String (Option String)
  | [] => .ok none
  | (k, v) :: rest =>
    if k = name then
      match v with
      | .str s => .ok (some s)
      | _ => .error "invalid type: expected a string"
    else personField name rest

/-- Deserialize one `DicomJsonPerson` from a JSON object. -/
def parsePerson : J → Except String DicomJsonPerson
  | .obj fields =>
    match personField "Alphabetic" fields with
    | .error e => .error e
    | .ok a =>
      match personField "Ideographic" fields with
      | .error e => .error e
      | .ok i =>
        match personField "Phonetic" fields with
        | .error e => .error e
        | .ok p => .ok { alphabetic := a, ideographic := i, phonetic := p }
  | _ => .error "invalid type: expected a person object"

/-- Modelled from the spec (§4.7): the wire form of a person name joins
the present component groups with `=`, omitting trailing absent ones. -/
def DicomJsonPerson.toDisplayString (p : DicomJsonPerson) : String :=
  p.alphabetic.getD "" ++
    (if p.ideographic.isSome ∨ p.phonetic.isSome then
      "=" ++ p.ideographic.getD "" ++
        (if p.phonetic.isSome then "=" ++ p.phonetic.getD "" else "")
    else "")

/-- A `Vec<DicomJsonPerson>` (the `PN` element branch). -/
def parsePersons : J → Except String (List DicomJsonPerson)
  | .arr xs =>
    let rec go : List J → Except String (List DicomJsonPerson)
      | [] => .ok []
      | x :: rest =>
        match parsePerson x with
        | .ok p =>
          match go rest with
          | .ok ps => .ok (p :: ps)
          | .error e => .error e
        | .error e => .error e
    go xs
  | _ => .error "invalid type: expected an array"

/-- A `Vec<DicomJson<Tag>>` (the `AT` element branch): an array of
8-hex-digit tag strings. -/
def parseTags : J → Except String (List Tag)
  | .arr xs =>
    let rec go : List J → Except String (List Tag)
      | [] => .ok []
      | .str s :: rest =>
        match parseTag s with
        | .ok t =>
          match go rest with
          | .ok ts => .ok (t :: ts)
          | .error e => .error e
        | .error e => .error e
      | _ :: _ => .error "invalid type: expected a tag string"
    go xs
  | _ => .error "invalid type: expected an array"

/-! ### The data element and data set visitors (src/json/src/de/mod.rs)

`DataElementVisitor::visit_map` consumes the fields of a data element
object in document order, and `InMemDicomObjectVisitor::visit_map`
consumes a data set.  They are mutually recursive through the `SQ`
branch; a fuel argument, decremented on every call, bounds the recursion
(the Rust recursion is bounded by the finite input document, so any
sufficiently large fuel computes the same result).
-/

/-- `DicomJsonPerson::to_string` mapped over the parsed persons, etc.
The final `match (values, inline_binary)` of `visit_map` (lines 301-313):
absent fields give `PrimitiveValue::Empty`, a lone `InlineBinary` is
base64-decoded into `U8` bytes, a lone `Value` passes through, and the
both-present case is `unreachable!()` from this entry point. -/
def finishElement (vr : VR) (values : Option DValue) (inline : Option String) :
    Except String JsonDataElement :=
  match values, inline with
  | none, none => .ok { vr := vr, value := .primitive .empty }
  | none, some ib =>
    match base64Decode ib with
    | some bytes => .ok { vr := vr, value := .primitive (.u8 bytes) }
    | none => .error "inline binary data is not valid base64"
  | some v, none => .ok { vr := vr, value := v }
  | some _, some _ => .error "unreachable"

/-- `InMemDicomObject::put`: overwrite the element with the same tag, or
append (spec §4.6; the ordered map is modelled as an association list). -/
def putElem : List (Tag × VR × DValue) → Tag → VR → DValue →
    List (Tag × VR × DValue)
  | [], t, vr, v => [(t, vr, v)]
  | (t', e') :: rest, t, vr, v =>
    if t' = t then (t, vr, v) :: rest else (t', e') :: putElem rest t vr v

mutual

/-- The per-VR dispatch of the `"Value"` arm of
`DataElementVisitor::visit_map` (lines 160-283): deserialize the `Value`
array in different ways depending on the VR. -/
def parseValueFor : Nat → VR → J → Except String DValue
  | 0, _, _ => .error "recursion limit reached"
  | fuel + 1, vr, j =>
    match vr with
    -- sequence
    | .SQ =>
      match j with
      | .arr xs =>
        match parseItems fuel xs with
        | .ok items => .ok (.sequence items)
        | .error e => .error e
      | _ => .error "invalid type: expected an array"
    -- always text
    | .AE | .AS | .CS | .DA | .DT | .LO | .LT
    | .SH | .ST | .UT | .UR | .TM | .UC | .UI =>
      match parseStrings j with
      | .ok items => .ok (.primitive (.strs items))
      | .error e => .error e
    -- should always be signed 16-bit integers
    | .SS =>
      match parseInts (-32768) 32767 j with
      | .ok items => .ok (.primitive (.i16 items))
      | .error e => .error e
    -- should always be unsigned 16-bit integers
    | .US | .OW =>
      match parseNats 65535 j with
      | .ok items => .ok (.primitive (.u16 items))
      | .error e => .error e
    -- should always be signed 32-bit integers
    | .SL =>
      match parseInts (-2147483648) 2147483647 j with
      | .ok items => .ok (.primitive (.i32 items))
      | .error e => .error e
    | .OB =>
      match parseNats 255 j with
      | .ok items => .ok (.primitive (.u8 items))
      | .error e => .error e
    -- sometimes numbers, sometimes text, should parse on the spot
    | .FL | .OF =>
      match parseNumOrTexts j with
      | .ok items =>
        match floatsOf items with
        | .ok fs => .ok (.primitive (.f32 fs))
        | .error e => .error e
      | .error e => .error e
    | .FD | .OD =>
      match parseNumOrTexts j with
      | .ok items =>
        match floatsOf items with
        | .ok fs => .ok (.primitive (.f64 fs))
        | .error e => .error e
      | .error e => .error e
    | .SV =>
      match parseIntNumOrTexts (-9223372036854775808) 9223372036854775807 j with
      | .ok items => .ok (.primitive (.i64 items))
      | .error e => .error e
    | .UL | .OL =>
      match parseNatNumOrTexts 4294967295 j with
      | .ok items => .ok (.primitive (.u32 items))
      | .error e => .error e
    | .UV | .OV =>
      match parseNatNumOrTexts 18446744073709551615 j with
      | .ok items => .ok (.primitive (.u64 items))
      | .error e => .error e
    -- sometimes numbers, sometimes text, but retain string form
    | .DS =>
      match parseNumOrTexts j with
      | .ok items =>
        .ok (.primitive (.strs (items.map NumberOrText.toDisplayString)))
      | .error e => .error e
    | .IS =>
      match parseNumOrTexts j with
      | .ok items =>
        .ok (.primitive (.strs (items.map NumberOrText.toDisplayString)))
      | .error e => .error e
    -- person names
    | .PN =>
      match parsePersons j with
      | .ok items =>
        .ok (.primitive (.strs (items.map DicomJsonPerson.toDisplayString)))
      | .error e => .error e
    -- tags
    | .AT =>
      match parseTags j with
      | .ok items => .ok (.primitive (.tags items))
      | .error e => .error e
    -- unknown
    | .UN => .error "cannot parse JSON Value in UN"

/-- The items of an `SQ` value: a `Vec<DicomJson<InMemDicomObject>>`. -/
def parseItems : Nat → List J → Except String (List InMemObject)
  | _, [] => .ok []
  | 0, _ :: _ => .error "recursion limit reached"
  | fuel + 1, x :: xs =>
    match x with
    | .obj fields =>
      match parseObject fuel fields with
      | .ok o =>
        match parseItems fuel xs with
        | .ok os => .ok (o :: os)
        | .error e => .error e
      | .error e => .error e
    | _ => .error "invalid type: expected a data set object"

/-- `InMemDicomObjectVisitor::visit_map` (lines 69-79): start from the
empty object and `put` each `(tag, element)` entry in document order. -/
def parseObject : Nat → List (String × J) → Except String InMemObject
  | 0, _ => .error "recursion limit reached"
  | fuel + 1, entries => objLoop fuel [] entries

/-- The entry loop of `InMemDicomObjectVisitor::visit_map`;
`obj.put` overwrites any element with the same tag (spec §4.6). -/
def objLoop : Nat → List (Tag × VR × DValue) → List (String × J) →
    Except String InMemObject
  | _, acc, [] => .ok (.mk acc)
  | 0, _, _ :: _ => .error "recursion limit reached"
  | fuel + 1, acc, (ts, jv) :: rest =>
    match parseTag ts with
    | .error e => .error e
    | .ok tag =>
      match jv with
      | .obj fields =>
        match parseElement fuel fields with
        | .ok el => objLoop fuel (putElem acc tag el.vr el.value) rest
        | .error e => .error e
      | _ => .error "invalid type: expected a data element object"

/-- `DataElementVisitor::visit_map` (lines 122-316): the first field must
be `"vr"` and hold a string; its value decodes through
`VR::from_str(..).unwrap_or(VR::UN)`; then the remaining fields are
consumed by the element loop. -/
def parseElement : Nat → List (String × J) → Except String JsonDataElement
  | 0, _ => .error "recursion limit reached"
  | fuel + 1, fields =>
    match fields with
    | [] => .error "vr is not set"
    | (key, v) :: rest =>
      if key = "vr" then
        match v with
        | .str s => elemLoop fuel (parseVR s) none none rest
        | _ => .error "invalid type for vr"
      else .error "expected vr to be the first field"

/-- The `while let Some(key) = map.next_key()` loop of
`DataElementVisitor::visit_map` (lines 146-299), carried out over the
remaining fields with the current `values` and `inline_binary` state. -/
def elemLoop : Nat → VR → Option DValue → Option String →
    List (String × J) → Except String JsonDataElement
  | 0, _, _, _, _ => .error "recursion limit reached"
  | fuel + 1, vr, values, inline, fields =>
    match fields with
    | [] => finishElement vr values inline
    | (key, j) :: rest =>
      if key = "vr" then .error "vr should only be set once"
      else if key = "Value" then
        if inline.isSome then .error "Value conflicts with InlineBinary"
        else
          match parseValueFor fuel vr j with
          | .ok v => elemLoop fuel vr (some v) inline rest
          | .error e => .error e
      else if key = "InlineBinary" then
        if values.isSome then .error "InlineBinary conflicts with Value"
        else
          match j with
          | .str s => elemLoop fuel vr values (some s) rest
          | _ => .error "invalid type for InlineBinary"
      else .error "Unrecognized data element field"

end

/-! ## Pixel-data decoding (src/pixeldata/src/gdcm.rs)

`decode_pixel_data` is in the sources; the attribute readers of the
`attribute` module, the `FileDicomObject` carrier and the GDCM bindings
are not, and are modelled from the spec (§4.8).
-/

/-- Modelled from the spec (§4.8): the `PhotometricInterpretation` type
of the pixeldata crate, with a catch-all variant for other strings. -/
inductive PhotometricInterpretation where
  | monochrome1
  | monochrome2
  | rgb
  | ybrFull
  | ybrFull422
  | paletteColor
  | other (s : String)
  deriving DecidableEq, Repr

/-- Parse a photometric interpretation attribute string (never fails;
unknown strings are carried verbatim). -/
def piFromString (s : String) : PhotometricInterpretation :=
  match s with
  | "MONOCHROME1" => .monochrome1
  | "MONOCHROME2" => .monochrome2
  | "RGB" => .rgb
  | "YBR_FULL" => .ybrFull
  | "YBR_FULL_422" => .ybrFull422
  | "PALETTE COLOR" => .paletteColor
  | _ => .other s

/-- Render a photometric interpretation back to its attribute string. -/
def piToString : PhotometricInterpretation → String
  | .monochrome1 => "MONOCHROME1"
  | .monochrome2 => "MONOCHROME2"
  | .rgb => "RGB"
  | .ybrFull => "YBR_FULL"
  | .ybrFull422 => "YBR_FULL_422"
  | .paletteColor => "PALETTE COLOR"
  | .other s => s

/-- Model of the external `GDCMPhotometricInterpretation::from_str`: the
set of interpretation strings the GDCM bindings recognize. -/
def gdcmPiKnown (s : String) : Bool :=
  s ∈ ["MONOCHROME1", "MONOCHROME2", "RGB", "YBR_FULL", "YBR_FULL_422",
       "PALETTE COLOR", "YBR_RCT", "YBR_ICT"]

/-- Model of the external `GDCMTransferSyntax::from_str`: the set of
transfer syntax UIDs the GDCM bindings recognize. -/
def gdcmTsKnown (s : String) : Bool :=
  s ∈ ["1.2.840.10008.1.2", "1.2.840.10008.1.2.1", "1.2.840.10008.1.2.2",
       "1.2.840.10008.1.2.4.50", "1.2.840.10008.1.2.4.90",
       "1.2.840.10008.1.2.4.91", "1.2.840.10008.1.2.5"]

/-- `PlanarConfiguration` of the pixeldata crate: interleaved (standard)
or per-plane (separate) sample layout. -/
inductive PlanarConfiguration where
  | standard
  | separate
  deriving DecidableEq, Repr

/-- The meaning of the Planar Configuration attribute value
(0 = interleaved/standard, 1 = separate planes). -/
def planarFromAttr (v : Nat) : PlanarConfiguration :=
  if v = 0 then .standard else .separate

/-- `VoiLutFunction::try_from(&str)` of the pixeldata crate. -/
inductive VoiLutFunction where
  | linear
  | linearExact
  | sigmoid
  deriving DecidableEq, Repr

/-- Parse a VOI LUT Function attribute string; unknown strings fail (the
source drops the failure with `.ok()`). -/
def voiLutFromString : String → Option VoiLutFunction
  | "LINEAR" => some .linear
  | "LINEAR_EXACT" => some .linearExact
  | "SIGMOID" => some .sigmoid
  | _ => none

/-- `WindowLevel { center, width }`. -/
structure WindowLevel where
  center : ℚ
  width : ℚ
  deriving DecidableEq, Repr

/-- The value of the Pixel Data element as matched by
`decode_pixel_data`: a native primitive byte value, an encapsulated
fragment sequence, or a (malformed) data set sequence. -/
inductive PixelDataValue where
  | primitive (bytes : List Nat)
  | pixelSequence (fragments : List (List Nat))
  | sequence
  deriving DecidableEq, Repr

/-- Modelled from the spec (§4.8): the object handed to
`decode_pixel_data`, carrying the file meta transfer syntax and the
image-pixel module attributes the readers of the absent `attribute`
module would extract.  `planar_configuration` is carried so that its
relation to the output can be stated; the source never reads it. -/
structure PixelObject where
  transfer_syntax : String
  pixel_data : Option PixelDataValue
  cols : Option Nat
  rows : Option Nat
  photometric_interpretation : Option String
  samples_per_pixel : Option Nat
  bits_allocated : Option Nat
  bits_stored : Option Nat
  high_bit : Option Nat
  pixel_representation : Option Nat
  rescale_intercept : Option ℚ
  rescale_slope : Option ℚ
  number_of_frames : Option Nat
  voi_lut_function : Option String
  window_center : Option ℚ
  window_width : Option ℚ
  planar_configuration : Option Nat
  deriving Repr

/-- The error taxonomy of the pixeldata crate (spec §4.8). -/
inductive PixelDataError where
  | getAttribute (name : String)
  | unknownTransferSyntax (uid : String)
  | unsupportedTransferSyntax (uid : String)
  | unsupportedPhotometricInterpretation (pi : String)
  | invalidPixelData
  | decodePixelData (message : String)
  deriving DecidableEq, Repr

/-- Outcome of `decode_pixel_data`: a decoded result, an error, or a
Rust panic (used to model the out-of-bounds `fragments[0]` access). -/
inductive POut (α : Type) where
  | ok (a : α)
  | err (e : PixelDataError)
  | panicked
  deriving Repr

/-- Sequencing of pixel-data steps: errors and panics short-circuit. -/
def POut.bind : POut α → (α → POut β) → POut β
  | .ok a, f => f a
  | .err e, _ => .err e
  | .panicked, _ => .panicked

/-- An attribute read (`attribute::*(self).context(GetAttributeSnafu)?`):
a missing attribute becomes a `GetAttribute` error. -/
def getAttr (name : String) : Option α → POut α
  | some v => .ok v
  | none => .err (.getAttribute name)

/-- `DecodedPixelData` (spec §4.8). -/
structure DecodedPixelData where
  data : List Nat
  cols : Nat
  rows : Nat
  number_of_frames : Nat
  photometric_interpretation : PhotometricInterpretation
  samples_per_pixel : Nat
  planar_configuration : PlanarConfiguration
  bits_allocated : Nat
  bits_stored : Nat
  high_bit : Nat
  pixel_representation : Nat
  rescale_intercept : ℚ
  rescale_slope : ℚ
  voi_lut_function : Option VoiLutFunction
  window : Option WindowLevel
  deriving Repr

/-- The external GDCM frame decoders
(`decode_single_frame_compressed` / `decode_multi_frame_compressed`),
opaque collaborators passed in as parameters. -/
structure GdcmApi where
  decodeSingle : List Nat → Nat → Nat → Nat → Nat → Nat → Nat → Nat →
    Except String (List Nat)
  decodeMulti : List (List Nat) → List Nat → Nat → Nat → Nat → Nat → Nat →
    Except String (List Nat)

/-- `decode_pixel_data` for `FileDicomObject<InMemDicomObject>`
(src/pixeldata/src/gdcm.rs, lines 17-145), translated step by step. -/
def decodePixelData (api : GdcmApi) (obj : PixelObject) :
    POut DecodedPixelData :=
  POut.bind (getAttr "PixelData" obj.pixel_data) fun pixel_data =>
  POut.bind (getAttr "Columns" obj.cols) fun cols =>
  POut.bind (getAttr "Rows" obj.rows) fun rows =>
  POut.bind (getAttr "PhotometricInterpretation" obj.photometric_interpretation)
    fun pi_str =>
  let photometric_interpretation := piFromString pi_str
  POut.bind (if gdcmPiKnown (piToString photometric_interpretation) then
      .ok () else .err (.unsupportedPhotometricInterpretation
        (piToString photometric_interpretation))) fun _ =>
  POut.bind (match registryGet obj.transfer_syntax with
    | some ts => .ok ts
    | none => .err (.unknownTransferSyntax obj.transfer_syntax)) fun ts =>
  POut.bind (if gdcmTsKnown ts.uid then .ok ()
    else .err (.unsupportedTransferSyntax obj.transfer_syntax)) fun _ =>
  POut.bind (getAttr "SamplesPerPixel" obj.samples_per_pixel)
    fun samples_per_pixel =>
  POut.bind (getAttr "BitsAllocated" obj.bits_allocated) fun bits_allocated =>
  POut.bind (getAttr "BitsStored" obj.bits_stored) fun bits_stored =>
  POut.bind (getAttr "HighBit" obj.high_bit) fun high_bit =>
  POut.bind (getAttr "PixelRepresentation" obj.pixel_representation)
    fun pixel_representation =>
  let rescale_intercept := obj.rescale_intercept.getD 0
  let rescale_slope := obj.rescale_slope.getD 1
  POut.bind (getAttr "NumberOfFrames" obj.number_of_frames)
    fun number_of_frames =>
  let voi_lut_function := obj.voi_lut_function.bind voiLutFromString
  POut.bind (match pixel_data with
    | .pixelSequence fragments =>
      if fragments.length > 1 then
        -- Bundle fragments and decode multi-frame dicoms
        match api.decodeMulti fragments [cols, rows, number_of_frames]
            samples_per_pixel bits_allocated bits_stored high_bit
            pixel_representation with
        | .ok bytes => .ok bytes
        | .error msg => .err (.decodePixelData msg)
      else
        -- `&fragments[0]` panics when the fragment list is empty
        match fragments.get? 0 with
        | none => .panicked
        | some frag =>
          match api.decodeSingle frag cols rows samples_per_pixel
              bits_allocated bits_stored high_bit pixel_representation with
          | .ok bytes => .ok bytes
          | .error msg => .err (.decodePixelData msg)
    | .primitive p =>
      -- Non-encoded, just return the pixel data of the first frame
      .ok p
    | .sequence => .err .invalidPixelData) fun decoded_pixel_data =>
  -- pixels are already interpreted, set new photometric interpretation
  let new_pi := match samples_per_pixel with
    | 1 => PhotometricInterpretation.monochrome2
    | 3 => PhotometricInterpretation.rgb
    | _ => photometric_interpretation
  let window := match obj.window_center with
    | some center => obj.window_width.map fun width => WindowLevel.mk center width
    | none => none
  POut.ok {
    data := decoded_pixel_data
    cols := cols
    rows := rows
    number_of_frames := number_of_frames
    photometric_interpretation := new_pi
    samples_per_pixel := samples_per_pixel
    planar_configuration := PlanarConfiguration.standard
    bits_allocated := bits_allocated
    bits_stored := bits_stored
    high_bit := high_bit
    pixel_representation := pixel_representation
    rescale_intercept := rescale_intercept
    rescale_slope := rescale_slope
    voi_lut_function := voi_lut_function
    window := window }

/-! ## Claim theorems -/

/-- C3: For every bulk basic decode (`decode_us_into`, `decode_ul_into`,
`decode_uv_into`, `decode_ss_into`, `decode_sl_into`, `decode_sv_into`,
`decode_fl_into`, `decode_fd_into`) over a destination slice of length
`n`: if all `n` element reads succeed the result is Ok and slot `i`
holds the `i`-th decoded value for every `i < n` (the sequential decode
yields a full-length list, which the loop writes verbatim); if the
`k`-th element read fails, the call returns that underlying I/O error,
the slots before index `k` hold the values decoded so far, and the
slots at and past the failure point are left unchanged (the final
buffer is the decoded prefix followed by the untouched suffix of the
original destination). -/
theorem bulk_decode_into_contract :
    (∀ e, IntoContract (decode_us e) (decode_us_into e)) ∧
    (∀ e, IntoContract (decode_ul e) (decode_ul_into e)) ∧
    (∀ e, IntoContract (decode_uv e) (decode_uv_into e)) ∧
    (∀ e, IntoContract (decode_ss e) (decode_ss_into e)) ∧
    (∀ e, IntoContract (decode_sl e) (decode_sl_into e)) ∧
    (∀ e, IntoContract (decode_sv e) (decode_sv_into e)) ∧
    (∀ e, IntoContract (decode_fl e) (decode_fl_into e)) ∧
    (∀ e, IntoContract (decode_fd e) (decode_fd_into e)) ∧
    (∀ (α : Type) (d : Src → Except IOError (α × Src)) (src : Src) (n : Nat),
      (seqDecode d src n).2 = none → (seqDecode d src n).1.length = n) :=
  ⟨fun e => decodeInto_contract (decode_us e),
   fun e => decodeInto_contract (decode_ul e),
   fun e => decodeInto_contract (decode_uv e),
   fun e => decodeInto_contract (decode_ss e),
   fun e => decodeInto_contract (decode_sl e),
   fun e => decodeInto_contract (decode_sv e),
   fun e => decodeInto_contract (decode_fl e),
   fun e => decodeInto_contract (decode_fd e),
   fun _ d src n h => seqDecode_full_on_ok d src n h⟩

/-- Witness for C3: a concrete 4-byte little-endian source decodes two
`u16` values into both slots with no error, and a concrete failing
source leaves the second slot unchanged while reporting the error. -/
theorem bulk_decode_into_contract_witness :
    decode_us_into .little [.inr 1, .inr 0, .inr 2, .inr 0] [7, 7] = ([1, 2], none) ∧
    (seqDecode (decode_us .little) [.inr 1, .inr 0, .inr 2, .inr 0] 2).1.length = 2 ∧
    decode_us_into .little [.inr 1, .inr 0, .inl (.other 5)] [7, 7] =
      ([1, 7], some (.other 5)) :=
  ⟨(bulk_decode_into_contract.1 .little [.inr 1, .inr 0, .inr 2, .inr 0] [7, 7]).trans
      (by decide),
   bulk_decode_into_contract.2.2.2.2.2.2.2.2 Nat (decode_us .little)
      [.inr 1, .inr 0, .inr 2, .inr 0] 2 (by decide),
   (bulk_decode_into_contract.1 .little [.inr 1, .inr 0, .inl (.other 5)] [7, 7]).trans
      (by decide)⟩

/-- C4 counterexample: for the UID string `u = "1.2.840.10008.1.2\x00"`
(which itself ends in a NUL), `get(u)` finds the Implicit VR Little
Endian descriptor but `get(u + "\x00")` finds nothing, because lookup
trims only a single trailing NUL byte; so `get(u) = get(u + "\x00")`
does not hold for every string `u`. -/
theorem registry_get_nul_counterexample :
    (registryGet ("1.2.840.10008.1.2" ++ nulStr)).isSome = true ∧
    registryGet (("1.2.840.10008.1.2" ++ nulStr) ++ nulStr) = none ∧
    registryGet ("1.2.840.10008.1.2" ++ nulStr) ≠
      registryGet (("1.2.840.10008.1.2" ++ nulStr) ++ nulStr) := by
  refine ⟨by decide, by decide, by decide⟩

/-- C4 (amended): for every UID string `u` that does not already end in
a NUL byte (in particular every well-formed UID), registry lookup
satisfies `get(u) = get(u + "\x00")`: the single trailing NUL padding
byte is trimmed before matching. -/
theorem registry_get_ignores_trailing_nul (u : String)
    (h : u.data.getLast? ≠ some nulChar) :
    registryGet u = registryGet (u ++ nulStr) := by
  unfold registryGet
  rw [trimTrailingNul_append_nul, trimTrailingNul_of_not_nul u h]

/-- Witness for C4: at `u = "1.2.840.10008.1.2"` the hypothesis holds
and both lookups return the fully supported descriptor named
"Implicit VR Little Endian". -/
theorem registry_get_ignores_trailing_nul_witness :
    ("1.2.840.10008.1.2" : String).data.getLast? ≠ some nulChar ∧
    registryGet "1.2.840.10008.1.2" = registryGet ("1.2.840.10008.1.2" ++ nulStr) ∧
    (registryGet "1.2.840.10008.1.2").map
      (fun ts => (ts.name, ts.fully_supported)) =
      some ("Implicit VR Little Endian", true) :=
  ⟨by decide,
   registry_get_ignores_trailing_nul "1.2.840.10008.1.2" (by decide),
   by decide⟩

/-- Whenever the remaining fields can only complete with a `Value` /
`InlineBinary` conflict — both keys still ahead, or one of them ahead
while the state already holds the other — the element loop fails. -/
theorem elemLoop_conflict (fields : List (String × J)) :
    ∀ (fuel : Nat) (vr : VR) (values : Option DValue) (inline : Option String),
    (("Value" ∈ fields.map Prod.fst ∧ "InlineBinary" ∈ fields.map Prod.fst) ∨
     (values.isSome = true ∧ "InlineBinary" ∈ fields.map Prod.fst) ∨
     (inline.isSome = true ∧ "Value" ∈ fields.map Prod.fst)) →
    ∃ msg, elemLoop fuel vr values inline fields = .error msg := by
  induction fields with
  | nil => intro _ _ _ _ h; simp at h
  | cons kv rest ih =>
    intro fuel vr values inline h
    obtain ⟨k, j⟩ := kv
    cases fuel with
    | zero => exact ⟨_, rfl⟩
    | succ fuel =>
      simp only [elemLoop]
      by_cases hk1 : k = "vr"
      · simp [hk1]
      · by_cases hk2 : k = "Value"
        · subst hk2
          simp only [if_neg hk1, if_pos rfl]
          cases hin : inline.isSome with
          | true => simp [hin]
          | false =>
            simp only [hin, Bool.false_eq_true, if_false]
            cases hv : parseValueFor fuel vr j with
            | error e => exact ⟨_, rfl⟩
            | ok v =>
              -- after a successful `Value`, an `InlineBinary` key remains ahead
              have hib : "InlineBinary" ∈ rest.map Prod.fst := by
                rcases h with ⟨_, hib⟩ | ⟨_, hib⟩ | ⟨hi, _⟩
                · simpa using hib
                · simpa using hib
                · rw [hi] at hin; cases hin
              exact ih fuel vr (some v) inline (Or.inr (Or.inl ⟨rfl, hib⟩))
        · by_cases hk3 : k = "InlineBinary"
          · subst hk3
            simp only [if_neg hk1, if_neg hk2, if_pos rfl]
            cases hv : values.isSome with
            | true => simp [hv]
            | false =>
              simp only [hv, Bool.false_eq_true, if_false]
              cases j with
              | str s =>
                have hval : "Value" ∈ rest.map Prod.fst := by
                  rcases h with ⟨hval, _⟩ | ⟨hs, _⟩ | ⟨_, hval⟩
                  · simpa [hk2] using hval
                  · rw [hs] at hv; cases hv
                  · simpa [hk2] using hval
                exact ih fuel vr values (some s) (Or.inr (Or.inr ⟨rfl, hval⟩))
              | null => exact ⟨_, rfl⟩
              | bool b => exact ⟨_, rfl⟩
              | num q => exact ⟨_, rfl⟩
              | arr xs => exact ⟨_, rfl⟩
              | obj fs => exact ⟨_, rfl⟩
          · simp [hk1, hk2, hk3]

/-- C6: For every DICOM-JSON data element object in which both a
`"Value"` key and an `"InlineBinary"` key are present, in either order,
deserialization fails with a parse error: the two fields are mutually
exclusive. -/
theorem json_value_inline_conflict (fuel : Nat) (fields : List (String × J))
    (hv : "Value" ∈ fields.map Prod.fst)
    (hib : "InlineBinary" ∈ fields.map Prod.fst) :
    ∃ msg, parseElement fuel fields = .error msg := by
  cases fuel with
  | zero => exact ⟨_, rfl⟩
  | succ fuel =>
    cases fields with
    | nil => simp at hv
    | cons kv rest =>
      obtain ⟨k, v⟩ := kv
      by_cases hk : k = "vr"
      · subst hk
        have hv' : "Value" ∈ rest.map Prod.fst := by simpa using hv
        have hib' : "InlineBinary" ∈ rest.map Prod.fst := by simpa using hib
        cases v with
        | str s =>
          obtain ⟨msg, hmsg⟩ :=
            elemLoop_conflict rest fuel (parseVR s) none none (Or.inl ⟨hv', hib'⟩)
          refine ⟨msg, ?_⟩
          show elemLoop fuel (parseVR s) none none rest = .error msg
          exact hmsg
        | null => exact ⟨_, rfl⟩
        | bool b => exact ⟨_, rfl⟩
        | num q => exact ⟨_, rfl⟩
        | arr xs => exact ⟨_, rfl⟩
        | obj fs => exact ⟨_, rfl⟩
      · refine ⟨"expected vr to be the first field", ?_⟩
        simp only [parseElement]
        rw [if_neg hk]

/-- Witness for C6: a concrete element object carrying `Value` before
`InlineBinary` (and, dually, the reverse order) is rejected. -/
theorem json_value_inline_conflict_witness :
    ("Value" ∈ ([("vr", J.str "CS"), ("Value", J.arr [J.str "A"]),
        ("InlineBinary", J.str "QUJD")].map Prod.fst) ∧
     "InlineBinary" ∈ ([("vr", J.str "CS"), ("Value", J.arr [J.str "A"]),
        ("InlineBinary", J.str "QUJD")].map Prod.fst)) ∧
    (∃ msg, parseElement 9 [("vr", J.str "CS"), ("Value", J.arr [J.str "A"]),
        ("InlineBinary", J.str "QUJD")] = .error msg) ∧
    (∃ msg, parseElement 9 [("vr", J.str "CS"), ("InlineBinary", J.str "QUJD"),
        ("Value", J.arr [J.str "A"])] = .error msg) :=
  ⟨⟨by decide, by decide⟩,
   json_value_inline_conflict 9 _ (by decide) (by decide),
   json_value_inline_conflict 9 _ (by decide) (by decide)⟩

/-- With VR `UN`, any `Value` key ahead of the element loop leads to a
parse error. -/
theorem elemLoop_un_value (fields : List (String × J)) :
    ∀ (fuel : Nat) (values : Option DValue) (inline : Option String),
    "Value" ∈ fields.map Prod.fst →
    ∃ msg, elemLoop fuel VR.UN values inline fields = .error msg := by
  induction fields with
  | nil => intro _ _ _ h; simp at h
  | cons kv rest ih =>
    intro fuel values inline h
    obtain ⟨k, j⟩ := kv
    cases fuel with
    | zero => exact ⟨_, rfl⟩
    | succ fuel =>
      simp only [elemLoop]
      by_cases hk1 : k = "vr"
      · simp [hk1]
      · by_cases hk2 : k = "Value"
        · subst hk2
          simp only [if_neg hk1, if_pos rfl]
          cases hin : inline.isSome with
          | true => simp [hin]
          | false =>
            simp only [hin, Bool.false_eq_true, if_false]
            -- the `UN` branch of the per-VR dispatch always errors
            cases fuel with
            | zero => exact ⟨_, rfl⟩
            | succ fuel => exact ⟨_, rfl⟩
        · by_cases hk3 : k = "InlineBinary"
          · subst hk3
            have hval : "Value" ∈ rest.map Prod.fst := by simpa [hk2] using h
            simp only [if_neg hk1, if_neg hk2, if_pos rfl]
            cases hv : values.isSome with
            | true => simp [hv]
            | false =>
              simp only [hv, Bool.false_eq_true, if_false]
              cases j with
              | str s => exact ih fuel values (some s) hval
              | null => exact ⟨_, rfl⟩
              | bool b => exact ⟨_, rfl⟩
              | num q => exact ⟨_, rfl⟩
              | arr xs => exact ⟨_, rfl⟩
              | obj fs => exact ⟨_, rfl⟩
          · simp [hk1, hk2, hk3]

/-- C7: For every DICOM-JSON data element object whose VR is `UN` (its
first field is a well-formed `"vr"` whose string decodes to `UN`) and
which carries a `"Value"` key, deserialization fails with a parse
error. -/
theorem json_un_with_value_is_error (fuel : Nat) (s : String)
    (rest : List (String × J)) (hvr : parseVR s = VR.UN)
    (hv : "Value" ∈ rest.map Prod.fst) :
    ∃ msg, parseElement fuel (("vr", J.str s) :: rest) = .error msg := by
  cases fuel with
  | zero => exact ⟨_, rfl⟩
  | succ fuel =>
    obtain ⟨msg, hmsg⟩ := elemLoop_un_value rest fuel none none hv
    refine ⟨msg, ?_⟩
    show elemLoop fuel (parseVR s) none none rest = .error msg
    rw [hvr]
    exact hmsg

/-- Witness for C7: the concrete object `{"vr":"UN","Value":[]}` is
rejected. -/
theorem json_un_with_value_is_error_witness :
    parseVR "UN" = VR.UN ∧
    ("Value" ∈ (([("Value", J.arr [])] : List (String × J)).map Prod.fst)) ∧
    ∃ msg, parseElement 9 [("vr", J.str "UN"), ("Value", J.arr [])] = .error msg :=
  ⟨rfl, by decide, json_un_with_value_is_error 9 "UN" [("Value", J.arr [])] rfl (by decide)⟩

/-- C8: For every `"vr"` string that is not one of the recognized
two-letter VR codes, deserialization does not fail on the VR itself:
the unknown VR string decodes to `VR::UN`, and the element parses
exactly as it would with `"vr": "UN"`. -/
theorem json_unknown_vr_decodes_as_un (s : String) (h : VR.fromStr s = none) :
    parseVR s = VR.UN ∧
    ∀ (fuel : Nat) (rest : List (String × J)),
      parseElement fuel (("vr", J.str s) :: rest) =
        parseElement fuel (("vr", J.str "UN") :: rest) := by
  have hp : parseVR s = VR.UN := by unfold parseVR; rw [h]; rfl
  refine ⟨hp, fun fuel rest => ?_⟩
  cases fuel with
  | zero => rfl
  | succ fuel =>
    show elemLoop fuel (parseVR s) none none rest =
      elemLoop fuel (parseVR "UN") none none rest
    rw [hp]
    rfl

/-- Witness for C8: `"ZZ"` is not a recognized VR code; it decodes to
`UN` and a bare `{"vr":"ZZ"}` parses like `{"vr":"UN"}`. -/
theorem json_unknown_vr_decodes_as_un_witness :
    VR.fromStr "ZZ" = none ∧ parseVR "ZZ" = VR.UN ∧
    parseElement 9 [("vr", J.str "ZZ")] = parseElement 9 [("vr", J.str "UN")] :=
  ⟨rfl, (json_unknown_vr_decodes_as_un "ZZ" rfl).1,
   (json_unknown_vr_decodes_as_un "ZZ" rfl).2 9 []⟩

/-- C10 counterexample: an element object with a well-formed `"vr"`
first field, no `"Value"` and no `"InlineBinary"`, but one extra
unrecognized field, is rejected — so the absence of `Value` and
`InlineBinary` alone does not guarantee success. -/
theorem json_vr_extra_field_counterexample :
    ("Value" ∉ ([("vr", J.str "CS"), ("Foo", J.null)].map Prod.fst)) ∧
    ("InlineBinary" ∉ ([("vr", J.str "CS"), ("Foo", J.null)].map Prod.fst)) ∧
    parseElement 9 [("vr", J.str "CS"), ("Foo", J.null)] =
      .error "Unrecognized data element field" :=
  ⟨by decide, by decide, rfl⟩

/-- C10 (amended): for every DICOM-JSON data element object whose only
field is a well-formed `"vr"` (so it carries neither `"Value"` nor
`"InlineBinary"` nor any other field), deserialization succeeds and
yields `PrimitiveValue::Empty`; the absence of a value is not a parse
error. -/
theorem json_vr_only_gives_empty (fuel : Nat) (s : String) :
    parseElement (fuel + 2) [("vr", J.str s)] =
      .ok { vr := parseVR s, value := .primitive .empty } := by
  simp [parseElement, elemLoop, finishElement]

/-- An element object of the shape `{"vr": s, "Value": j}` reduces to
the per-VR dispatch on `j` followed by the final assembly. -/
theorem parseElement_vr_value (fuel : Nat) (s : String) (j : J) :
    parseElement (fuel + 3) [("vr", J.str s), ("Value", j)] =
      match parseValueFor (fuel + 1) (parseVR s) j with
      | .ok v => finishElement (parseVR s) (some v) none
      | .error e => .error e := by
  cases hv : parseValueFor (fuel + 1) (parseVR s) j with
  | ok v =>
    show (match parseValueFor (fuel + 1) (parseVR s) j with
      | .ok v => elemLoop (fuel + 1) (parseVR s) (some v) none []
      | .error e => .error e) = _
    rw [hv]
    rfl
  | error e =>
    show (match parseValueFor (fuel + 1) (parseVR s) j with
      | .ok v => elemLoop (fuel + 1) (parseVR s) (some v) none []
      | .error e => .error e) = _
    rw [hv]

/-- C1 counterexample: a DS `Value` entry given as the JSON number
literal `2.0` parses (in the external JSON layer) to the number 2 and
reads back as the string `"2"`, not its original textual form `"2.0"` —
so entries given as JSON numbers are not retained in their original
string form. -/
theorem json_ds_number_not_retained :
    jsonNumParse "2.0" = some 2 ∧
    parseElement 9 [("vr", J.str "DS"), ("Value", J.arr [J.num 2])] =
      .ok { vr := VR.DS, value := .primitive (.strs ["2"]) } ∧
    ("2" : String) ≠ "2.0" :=
  ⟨by decide, rfl, by decide⟩

/-- C1 (amended): for every DS or IS data element whose `Value` array
deserializes as a list of number-or-text entries, read-back yields a
`Strs` primitive value with one string per entry; an entry given as a
JSON string is retained verbatim, while an entry given as a JSON number
is stored as the decimal rendering of the parsed number, which may
differ from its original textual form. -/
theorem json_ds_is_string_forms (fuel : Nat) (entries : List J)
    (items : List NumberOrText)
    (h : parseNumOrTexts (J.arr entries) = .ok items) :
    parseElement (fuel + 3) [("vr", J.str "DS"), ("Value", J.arr entries)] =
      .ok { vr := VR.DS,
            value := .primitive (.strs (items.map NumberOrText.toDisplayString)) } ∧
    parseElement (fuel + 3) [("vr", J.str "IS"), ("Value", J.arr entries)] =
      .ok { vr := VR.IS,
            value := .primitive (.strs (items.map NumberOrText.toDisplayString)) } ∧
    (∀ s, NumberOrText.toDisplayString (.text s) = s) ∧
    (∀ q, NumberOrText.toDisplayString (.number q) = displayNum q) := by
  refine ⟨?_, ?_, fun s => rfl, fun q => rfl⟩
  · rw [parseElement_vr_value]
    simp [parseValueFor, h, finishElement, parseVR, VR.fromStr]
  · rw [parseElement_vr_value]
    simp [parseValueFor, h, finishElement, parseVR, VR.fromStr]

/-- Witness for C1 (amended): the document with DS value
`["1.50", 1.5]` (a string entry and a number entry) reads back as
`Strs ["1.50", "1.5"]`: the string entry is retained verbatim. -/
theorem json_ds_is_string_forms_witness :
    parseNumOrTexts (J.arr [J.str "1.50", J.num (mkRat 3 2)]) =
      .ok [.text "1.50", .number (mkRat 3 2)] ∧
    parseElement 9 [("vr", J.str "DS"), ("Value", J.arr [J.str "1.50", J.num (mkRat 3 2)])] =
      .ok { vr := VR.DS, value := .primitive (.strs ["1.50", "1.5"]) } :=
  ⟨rfl,
   (json_ds_is_string_forms 6 [J.str "1.50", J.num (mkRat 3 2)]
      [.text "1.50", .number (mkRat 3 2)] rfl).1⟩

/-- Inversion for the pixel pipeline sequencing: a successful chain has
a successful head. -/
theorem POut.bind_eq_ok {α β : Type} {m : POut α} {f : α → POut β} {b : β}
    (h : POut.bind m f = .ok b) : ∃ a, m = .ok a ∧ f a = .ok b := by
  cases m with
  | ok a => exact ⟨a, rfl, h⟩
  | err e => exact absurd h (by simp [POut.bind])
  | panicked => exact absurd h (by simp [POut.bind])

/-- A trivial instantiation of the external GDCM decoders, used for
concrete runs that never reach them. -/
def stubApi : GdcmApi where
  decodeSingle := fun _ _ _ _ _ _ _ _ => .ok []
  decodeMulti := fun _ _ _ _ _ _ _ => .ok []

/-- The uncompressed test object of spec scenario S7 (Explicit VR Little
Endian, 2x2, 8-bit, one sample per pixel, native pixel data
`[0,1,2,3]`), here carrying a Planar Configuration attribute of 1. -/
def objS7 : PixelObject where
  transfer_syntax := "1.2.840.10008.1.2.1"
  pixel_data := some (.primitive [0, 1, 2, 3])
  cols := some 2
  rows := some 2
  photometric_interpretation := some "MONOCHROME2"
  samples_per_pixel := some 1
  bits_allocated := some 8
  bits_stored := some 8
  high_bit := some 7
  pixel_representation := some 0
  rescale_intercept := none
  rescale_slope := none
  number_of_frames := some 1
  voi_lut_function := none
  window_center := none
  window_width := none
  planar_configuration := some 1

/-- C2 counterexample: on a native-path object whose Planar
Configuration attribute is 1 (separate planes), `decode_pixel_data`
succeeds but reports `planar_configuration = Standard`: the field is
hard-coded and does not equal the attribute read from the object. -/
theorem decode_native_planar_counterexample :
    objS7.planar_configuration = some 1 ∧
    planarFromAttr 1 = .separate ∧
    ∃ d, decodePixelData stubApi objS7 = .ok d ∧
      d.planar_configuration = .standard ∧
      d.planar_configuration ≠ planarFromAttr 1 :=
  ⟨rfl, rfl, ⟨_, rfl, rfl, by decide⟩⟩

/-- C2 (amended): for every call of `decode_pixel_data` on an object
whose Pixel Data value is `Primitive` (the native, uncompressed path),
the returned `DecodedPixelData` carries the pixel-data bytes copied
as-is in its `data` field, and its `planar_configuration` field is
always `Standard`, regardless of the object's Planar Configuration
attribute (which the source never reads). -/
theorem decode_native_copies_bytes (api : GdcmApi) (obj : PixelObject)
    (bytes : List Nat) (d : DecodedPixelData)
    (hp : obj.pixel_data = some (.primitive bytes))
    (hd : decodePixelData api obj = .ok d) :
    d.data = bytes ∧ d.planar_configuration = .standard := by
  unfold decodePixelData at hd
  rw [hp] at hd
  obtain ⟨pd, hpd, hd⟩ := POut.bind_eq_ok hd
  simp only [getAttr] at hpd
  injection hpd with hpd
  subst hpd
  obtain ⟨cols, _, hd⟩ := POut.bind_eq_ok hd
  obtain ⟨rows, _, hd⟩ := POut.bind_eq_ok hd
  obtain ⟨ps, _, hd⟩ := POut.bind_eq_ok hd
  obtain ⟨u1, _, hd⟩ := POut.bind_eq_ok hd
  obtain ⟨ts, _, hd⟩ := POut.bind_eq_ok hd
  obtain ⟨u2, _, hd⟩ := POut.bind_eq_ok hd
  obtain ⟨spp, _, hd⟩ := POut.bind_eq_ok hd
  obtain ⟨ba, _, hd⟩ := POut.bind_eq_ok hd
  obtain ⟨bs, _, hd⟩ := POut.bind_eq_ok hd
  obtain ⟨hb, _, hd⟩ := POut.bind_eq_ok hd
  obtain ⟨pr, _, hd⟩ := POut.bind_eq_ok hd
  obtain ⟨nf, _, hd⟩ := POut.bind_eq_ok hd
  obtain ⟨decoded, hdec, hd⟩ := POut.bind_eq_ok hd
  simp only at hdec
  injection hdec with hdec
  injection hd with hd
  subst hd
  subst hdec
  exact ⟨rfl, rfl⟩

/-- Witness for C2 (amended): on the concrete S7 object the native path
returns `data = [0,1,2,3]` with `planar_configuration = Standard`. -/
theorem decode_native_copies_bytes_witness :
    objS7.pixel_data = some (.primitive [0, 1, 2, 3]) ∧
    ∃ d, decodePixelData stubApi objS7 = .ok d ∧
      (d.data = [0, 1, 2, 3] ∧ d.planar_configuration = .standard) :=
  ⟨rfl, ⟨_, rfl, decode_native_copies_bytes stubApi objS7 [0, 1, 2, 3] _ rfl rfl⟩⟩

/-- The post-decoding photometric rewrite of `decode_pixel_data`
(src/pixeldata/src/gdcm.rs, lines 111-115). -/
def rewritePi (spp : Nat) (pi : PhotometricInterpretation) :
    PhotometricInterpretation :=
  match spp with
  | 1 => PhotometricInterpretation.monochrome2
  | 3 => PhotometricInterpretation.rgb
  | _ => pi

/-- C5: for every successful `decode_pixel_data` call, the
`photometric_interpretation` of the result is rewritten after decoding:
it equals `MONOCHROME2` when the object's `SamplesPerPixel` is 1, `RGB`
when it is 3, and the object's original photometric interpretation for
any other value. -/
theorem decode_rewrites_photometric (api : GdcmApi) (obj : PixelObject)
    (d : DecodedPixelData) (spp : Nat) (ps : String)
    (hs : obj.samples_per_pixel = some spp)
    (hpi : obj.photometric_interpretation = some ps)
    (hd : decodePixelData api obj = .ok d) :
    d.photometric_interpretation = rewritePi spp (piFromString ps) := by
  unfold decodePixelData at hd
  rw [hpi, hs] at hd
  obtain ⟨pd, _, hd⟩ := POut.bind_eq_ok hd
  obtain ⟨cols, _, hd⟩ := POut.bind_eq_ok hd
  obtain ⟨rows, _, hd⟩ := POut.bind_eq_ok hd
  obtain ⟨ps', hps, hd⟩ := POut.bind_eq_ok hd
  simp only [getAttr] at hps
  injection hps with hps
  subst hps
  obtain ⟨u1, _, hd⟩ := POut.bind_eq_ok hd
  obtain ⟨ts, _, hd⟩ := POut.bind_eq_ok hd
  obtain ⟨u2, _, hd⟩ := POut.bind_eq_ok hd
  obtain ⟨spp', hspp, hd⟩ := POut.bind_eq_ok hd
  simp only [getAttr] at hspp
  injection hspp with hspp
  subst hspp
  obtain ⟨ba, _, hd⟩ := POut.bind_eq_ok hd
  obtain ⟨bs, _, hd⟩ := POut.bind_eq_ok hd
  obtain ⟨hb, _, hd⟩ := POut.bind_eq_ok hd
  obtain ⟨pr, _, hd⟩ := POut.bind_eq_ok hd
  obtain ⟨nf, _, hd⟩ := POut.bind_eq_ok hd
  obtain ⟨decoded, _, hd⟩ := POut.bind_eq_ok hd
  injection hd with hd
  subst hd
  rfl

/-- Witness for C5: the S7 object has one sample per pixel, and its
decoded result reports `MONOCHROME2`. -/
theorem decode_rewrites_photometric_witness :
    objS7.samples_per_pixel = some 1 ∧
    ∃ d, decodePixelData stubApi objS7 = .ok d ∧
      d.photometric_interpretation = PhotometricInterpretation.monochrome2 :=
  ⟨rfl, ⟨_, rfl,
    decode_rewrites_photometric stubApi objS7 _ 1 "MONOCHROME2" rfl rfl rfl⟩⟩

/-- C9: `decode_pixel_data` is total only under the precondition that an
encapsulated Pixel Data value has at least one fragment: on an object
whose Pixel Data value is a `PixelSequence` with an empty fragment list
(and whose attributes otherwise let decoding proceed), the single-frame
branch indexes `fragments[0]` out of bounds — modelled as a panic
outcome — instead of returning an error. -/
theorem decode_empty_fragments_panics (api : GdcmApi) (obj : PixelObject)
    (c r spp ba bs hb pr nf : Nat) (ps : String)
    (ts : TransferSyntaxDescriptor)
    (hp : obj.pixel_data = some (.pixelSequence []))
    (hc : obj.cols = some c) (hr : obj.rows = some r)
    (hpi : obj.photometric_interpretation = some ps)
    (hpik : gdcmPiKnown (piToString (piFromString ps)) = true)
    (hts : registryGet obj.transfer_syntax = some ts)
    (htsk : gdcmTsKnown ts.uid = true)
    (hs : obj.samples_per_pixel = some spp)
    (hba : obj.bits_allocated = some ba)
    (hbs : obj.bits_stored = some bs)
    (hhb : obj.high_bit = some hb)
    (hpr : obj.pixel_representation = some pr)
    (hnf : obj.number_of_frames = some nf) :
    decodePixelData api obj = .panicked := by
  simp [decodePixelData, getAttr, POut.bind, hp, hc, hr, hpi, hpik, hts,
    htsk, hs, hba, hbs, hhb, hpr, hnf]

/-- The S7 object with its Pixel Data replaced by an encapsulated value
holding no fragments. -/
def objEmptyFrags : PixelObject :=
  { objS7 with pixel_data := some (.pixelSequence []) }

/-- Witness for C9: the concrete empty-fragment object panics. -/
theorem decode_empty_fragments_panics_witness :
    objEmptyFrags.pixel_data = some (.pixelSequence []) ∧
    decodePixelData stubApi objEmptyFrags = .panicked :=
  ⟨rfl,
   decode_empty_fragments_panics stubApi objEmptyFrags 2 2 1 8 8 7 0 1
     "MONOCHROME2" _ rfl rfl rfl rfl rfl rfl rfl rfl rfl rfl rfl rfl rfl⟩

end DicomRs
